import Mathlib

/-!
Shallow embedding of the `clipp` clipboard library (`src/lib.rs`,
`src/providers.rs`).

Rust strings are UTF-8 byte sequences; where byte-level behaviour matters
(length arithmetic, `truncate`, `ends_with`) we model a `String`'s contents
as a `List Nat` of byte values.  External processes are modelled by small
"world" records supplying the outcome of each fallible step (spawn, write,
wait, read) and the raw bytes a child writes to its stdout.  Rust `usize`
arithmetic is modelled with overflow checks enabled (Rust defines overflow
as a program error; with checks on, underflow panics), so a panicking
computation is represented by `Option.none`.
-/

/-- Kinds of `std::io::Error` that appear in the sources: `ErrorKind::Other`
(used by the library's own errors) and `InvalidData` (produced by
`read_to_string` on non-UTF-8 input). -/
inductive IoErrKind where
  | other
  | invalidData
deriving DecidableEq

/-- A `std::io::Error`: a kind together with its message string. -/
structure IoErr where
  kind : IoErrKind
  msg : String
deriving DecidableEq

/-- Configuration of one standard stream of a `std::process::Command`:
left to inherit (the default), `Stdio::piped()`, or `Stdio::null()`. -/
inductive PipeCfg where
  | inherited
  | piped
  | toNull
deriving DecidableEq

/-- A configured `std::process::Command`: program, argument list, and the
configuration of the three standard streams (all inherit by default). -/
structure Cmd where
  program : String
  args : List String
  stdinCfg : PipeCfg := PipeCfg.inherited
  stdoutCfg : PipeCfg := PipeCfg.inherited
  stderrCfg : PipeCfg := PipeCfg.inherited
deriving DecidableEq

/-- `leadsWith pre l` is true when `pre` is an initial segment of `l`
(the byte/char-level matching step used by substring containment). -/
def leadsWith : List Char → List Char → Bool
  | [], _ => true
  | _ :: _, [] => false
  | a :: as, b :: bs => a == b && leadsWith as bs

/-- `containsSeq needle hay`: whether `needle` occurs contiguously inside
`hay`; models Rust `str::contains` with a literal pattern. -/
def containsSeq (needle : List Char) : List Char → Bool
  | [] => leadsWith needle []
  | c :: t => leadsWith needle (c :: t) || containsSeq needle t

/-- Is byte `b` a UTF-8 continuation byte (`0x80..=0xBF`)? -/
def contByte (b : Nat) : Bool := decide (0x80 ≤ b) && decide (b ≤ 0xBF)

/-- UTF-8 validity of a byte sequence, following the table used by Rust's
`str::from_utf8` (RFC 3629: no overlong forms, no surrogates, max U+10FFFF).
`String::read_to_string` fails with an `InvalidData` error exactly when this
is false of the child's output. -/
def validUtf8 : List Nat → Bool
  | [] => true
  | b :: t =>
    if b ≤ 0x7F then validUtf8 t
    else if 0xC2 ≤ b && b ≤ 0xDF then
      match t with
      | b1 :: t2 => contByte b1 && validUtf8 t2
      | [] => false
    else if b == 0xE0 then
      match t with
      | b1 :: b2 :: t2 => decide (0xA0 ≤ b1) && decide (b1 ≤ 0xBF) && contByte b2 && validUtf8 t2
      | _ => false
    else if (0xE1 ≤ b && b ≤ 0xEC) || b == 0xEE || b == 0xEF then
      match t with
      | b1 :: b2 :: t2 => contByte b1 && contByte b2 && validUtf8 t2
      | _ => false
    else if b == 0xED then
      match t with
      | b1 :: b2 :: t2 => decide (0x80 ≤ b1) && decide (b1 ≤ 0x9F) && contByte b2 && validUtf8 t2
      | _ => false
    else if b == 0xF0 then
      match t with
      | b1 :: b2 :: b3 :: t2 =>
        decide (0x90 ≤ b1) && decide (b1 ≤ 0xBF) && contByte b2 && contByte b3 && validUtf8 t2
      | _ => false
    else if 0xF1 ≤ b && b ≤ 0xF3 then
      match t with
      | b1 :: b2 :: b3 :: t2 => contByte b1 && contByte b2 && contByte b3 && validUtf8 t2
      | _ => false
    else if b == 0xF4 then
      match t with
      | b1 :: b2 :: b3 :: t2 =>
        decide (0x80 ≤ b1) && decide (b1 ≤ 0x8F) && contByte b2 && contByte b3 && validUtf8 t2
      | _ => false
    else false

/-- The error `read_to_string` reports for non-UTF-8 stream contents. -/
def utf8Err : IoErr := { kind := IoErrKind.invalidData, msg := "stream did not contain valid UTF-8" }

/-- Outcome oracle for one `Eat::eat` run: whether `spawn` fails, whether
reading the child's stdout fails at the stream level, and the raw bytes the
child writes to its stdout. -/
structure EatWorld where
  spawnErr : Option IoErr
  readErr : Option IoErr
  output : List Nat

/-- `Eat::eat` (`providers.rs:29-40`): re-configure stdout as `piped`
(overriding any earlier caller setting), spawn, and read the child's stdout
to end-of-stream into a `String`.  Returns the command as finally
configured together with the result; non-UTF-8 output is an I/O error. -/
def eat (c : Cmd) (w : EatWorld) : Cmd × Except IoErr (List Nat) :=
  ({ c with stdoutCfg := PipeCfg.piped },
    match w.spawnErr with
    | some e => Except.error e
    | none =>
      match w.readErr with
      | some e => Except.error e
      | none => if validUtf8 w.output then Except.ok w.output else Except.error utf8Err)

/-- Outcome oracle for one `Put::put` run: failures of spawn, of
`write_all` to the child's stdin, and of `wait`, plus the exit status the
child would report (which `put` never consults). -/
structure PutWorld where
  spawnErr : Option IoErr
  writeErr : Option IoErr
  waitErr : Option IoErr
  exitSuccess : Bool

/-- Result of `Put::put` (`providers.rs:46-53`): the first failing step's
error, otherwise `Ok(())`.  The child's exit status (`PutWorld.exitSuccess`)
is discarded: `ch.wait()?` only propagates I/O failure of `wait` itself. -/
def putResult (w : PutWorld) : Except IoErr Unit :=
  match w.spawnErr with
  | some e => Except.error e
  | none =>
    match w.writeErr with
    | some e => Except.error e
    | none =>
      match w.waitErr with
      | some e => Except.error e
      | none => Except.ok ()

/-- The bytes actually delivered to the child's stdin by `Put::put`: the
whole text once spawn and `write_all` both succeed, nothing otherwise. -/
def putWritten (text : String) (w : PutWorld) : Option String :=
  if w.spawnErr.isNone && w.writeErr.isNone then some text else none

/-- `Put::put` (`providers.rs:46-53`): configure stdin as `piped`, spawn,
write the full buffer to the child's stdin, close it, wait.  Returns the
command as finally configured, what reached the child's stdin, and the
result. -/
def put (c : Cmd) (text : String) (w : PutWorld) : Cmd × Option String × Except IoErr Unit :=
  ({ c with stdinCfg := PipeCfg.piped }, putWritten text w, putResult w)

/-- Outcome oracle for a `Command::status()` call: `none` when the
spawn-and-wait itself fails, otherwise the exit status's `success()` bit. -/
structure StatusWorld where
  spawnErr : Option IoErr
  exitSuccess : Bool

/-- `Command::status()` as used at `providers.rs:98`: run the child and
report its exit status, or the I/O error from spawn/wait. -/
def statusRun (w : StatusWorld) : Except IoErr Bool :=
  match w.spawnErr with
  | some e => Except.error e
  | none => Except.ok w.exitSuccess

/-- The clipboard backends reachable on a Linux (non-Windows, non-macOS)
build, where the `Windows` and `PbCopy` impls are compiled out. -/
inductive Provider where
  | wsl
  | wayland
  | xsel
  | xclip
  | klipper
deriving DecidableEq

/-- The environment the selector consults on a Linux host: the contents of
`/proc/version` (`none` when unreadable), presence of the `WAYLAND_DISPLAY`
variable, and the outcome of each `which <cmd>` probe (`none` when the probe
itself fails to spawn, `some b` for exit-status success bit `b`). -/
structure Env where
  procVersion : Option String
  waylandDisplay : Bool
  probe : String → Option Bool

/-- The command `has` runs for a probe (`providers.rs:167-175`):
`which <c>` with stdout and stderr both sent to the null sink. -/
def whichCmd (c : String) : Cmd :=
  { program := "which", args := [c], stdoutCfg := PipeCfg.toNull, stderrCfg := PipeCfg.toNull }

/-- `has` (`providers.rs:167-175`): `status().ok().map_or(false, success)` —
a probe that fails to spawn counts as "not present". -/
def hasCmd (e : Env) (c : String) : Bool := (e.probe c).getD false

/-- `wsl` (`providers.rs:177-181`): `/proc/version` is readable and its
lowercased contents contain `"microsoft"`.  Rust lowercases with
`str::to_lowercase`; the needle is ASCII, modelled with `Char.toLower`. -/
def wslB (e : Env) : Bool :=
  match e.procVersion with
  | none => false
  | some s => containsSeq "microsoft".toList (s.toList.map Char.toLower)

/-- The detection error built at `providers.rs:201` (message as spelled in
the source). -/
def noProviderErr : IoErr := { kind := IoErrKind.other, msg := "no clipboard provided available" }

/-- `provide` (`providers.rs:183-203`) on a Linux target: the `cfg`-gated
Windows/macOS returns are compiled out, leaving the WSL check, then the
Wayland / xsel / xclip / Klipper chain, then the detection error. -/
def provide (e : Env) : Except IoErr Provider :=
  if wslB e then Except.ok Provider.wsl
  else if e.waylandDisplay && hasCmd e "wl-copy" then Except.ok Provider.wayland
  else if hasCmd e "xsel" then Except.ok Provider.xsel
  else if hasCmd e "xclip" then Except.ok Provider.xclip
  else if hasCmd e "klipper" && hasCmd e "qdbus" then Except.ok Provider.klipper
  else Except.error noProviderErr

/-- `OnceLock::get_or_init` (`lib.rs:13`, used at lines 17, 24, 29, 36):
if the slot is filled return its value, otherwise run the initializer,
store its result, and return it.  The third component records whether the
initializer (detection) ran on this call. -/
def getOrInit {α : Type} (slot : Option α) (f : Unit → α) : α × Option α × Bool :=
  match slot with
  | some v => (v, some v, false)
  | none => (f (), some (f ()), true)

/-- A sequence of `n` façade calls (`copy`/`copy2`/`paste`/`paste2`, each of
which begins with `CLIP.get_or_init(providers::provide)`): the list of slot
values each call observes, the final slot state, and how many of the calls
ran detection. -/
def runCalls {α : Type} (f : Unit → α) : Nat → Option α → List α × Option α × Nat
  | 0, slot => ([], slot, 0)
  | Nat.succ n, slot =>
    match getOrInit slot f with
    | (v, slot2, ran) =>
      match runCalls f n slot2 with
      | (vs, slot3, k) => (v :: vs, slot3, (if ran then 1 else 0) + k)

/-- Checked `usize` subtraction: Rust arithmetic with overflow checks
enabled panics on underflow, modelled as `none`. -/
def subChecked (a b : Nat) : Option Nat := if b ≤ a then some (a - b) else none

/-- `str::is_char_boundary` on the byte representation: index 0 is a
boundary; otherwise the byte at the index must exist and not be a UTF-8
continuation byte, or the index equals the length. -/
def isCharBoundary (s : List Nat) (i : Nat) : Bool :=
  if i == 0 then true
  else
    match s.get? i with
    | none => i == s.length
    | some b => decide (b < 0x80) || decide (0xC0 ≤ b)

/-- `String::truncate s n`: no effect when `n` exceeds the length; panics
(`none`) when `n` is not a char boundary; otherwise keeps the first `n`
bytes. -/
def truncateR (s : List Nat) (n : Nat) : Option (List Nat) :=
  if s.length < n then some s
  else if isCharBoundary s n then some (s.take n) else none

/-- The `xclip -selection c -o` command as configured by `XClip::paste`
(`providers.rs:74-78`) before `eat` runs: both stderr and stdout sent to
the null sink. -/
def xclipPasteCmd : Cmd :=
  { program := "xclip", args := ["-selection", "c", "-o"],
    stdoutCfg := PipeCfg.toNull, stderrCfg := PipeCfg.toNull }

/-- `XClip::paste` (`providers.rs:74-79`): run `xclip -selection c -o` with
stderr (and, redundantly, stdout) nulled, then `eat` it — `eat` re-pipes
stdout last, so the pipe wins. -/
def XClip.paste (w : EatWorld) : Cmd × Except IoErr (List Nat) :=
  eat xclipPasteCmd w

/-- `wl-copy -p --clear`, the command `Wayland::copy` runs for the empty
string (`providers.rs:97`). -/
def wlClearCmd : Cmd := { program := "wl-copy", args := ["-p", "--clear"] }

/-- `wl-copy -p`, the command `Wayland::copy` feeds via stdin for non-empty
text (`providers.rs:107`). -/
def wlCopyCmd : Cmd := { program := "wl-copy", args := ["-p"] }

/-- `Wayland::copy` (`providers.rs:95-109`): the empty string runs
`wl-copy -p --clear` through `status()` and demands a successful exit,
otherwise an `Other` I/O error "wl-copy was not successful"; any other text
is written to `wl-copy -p` through `put` (exit status ignored).  Returns
the command that was run alongside the result. -/
def Wayland.copy (text : String) (sw : StatusWorld) (pw : PutWorld) :
    Cmd × Except IoErr Unit :=
  if text = "" then
    (wlClearCmd,
      match statusRun sw with
      | Except.error e => Except.error e
      | Except.ok true => Except.ok ()
      | Except.ok false =>
        Except.error { kind := IoErrKind.other, msg := "wl-copy was not successful" })
  else
    ((put wlCopyCmd text pw).1, (put wlCopyCmd text pw).2.2)

/-- The `qdbus org.kde.klipper /klipper setClipboardContents <text>` command
constructed by `Klipper::copy` (`providers.rs:119`). -/
def klipperSetCmd (text : String) : Cmd :=
  { program := "qdbus", args := ["org.kde.klipper", "/klipper", "setClipboardContents", text] }

/-- What a provider `copy` did with external commands: which commands it
constructed and which of those it actually spawned. -/
structure CopyTrace where
  constructed : List Cmd
  spawned : List Cmd
deriving DecidableEq

/-- `Klipper::copy` (`providers.rs:118-121`): the `qdbus ...
setClipboardContents <text>` command is built (and its `arg(text)`
attached) but the expression is dropped without `spawn`/`status`/`output`;
the function then returns `Ok(())` unconditionally. -/
def Klipper.copy (text : String) : CopyTrace × Except IoErr Unit :=
  ({ constructed := [klipperSetCmd text], spawned := [] }, Except.ok ())

/-- The `qdbus org.kde.klipper /klipper getClipboardContents` command run by
`Klipper::paste` (`providers.rs:124`). -/
def klipperGetCmd : Cmd :=
  { program := "qdbus", args := ["org.kde.klipper", "/klipper", "getClipboardContents"] }

/-- The post-processing of `Klipper::paste` (`providers.rs:125-126`):
`assert!(s.ends_with('\n'))` — byte 10 last, else panic (`none`) — then
`s.truncate(s.len() - 1)`. -/
def Klipper.pasteStrip (s : List Nat) : Option (List Nat) :=
  if s.getLast? = some 10 then truncateR s (s.length - 1) else none

/-- `Klipper::paste` (`providers.rs:123-128`): `eat` the qdbus command; a
read error is returned as `Err` (recoverable), while a missing trailing
newline trips the assertion and aborts (`none`). -/
def Klipper.paste (w : EatWorld) : Option (Except IoErr (List Nat)) :=
  match (eat klipperGetCmd w).2 with
  | Except.error e => some (Except.error e)
  | Except.ok s =>
    match Klipper.pasteStrip s with
    | none => none
    | some s2 => some (Except.ok s2)

/-- The `powershell.exe -noprofile -command Get-Clipboard` command run by
`Wsl::paste` (`providers.rs:152`). -/
def powershellCmd : Cmd :=
  { program := "powershell.exe", args := ["-noprofile", "-command", "Get-Clipboard"] }

/-- The post-processing of `Wsl::paste` (`providers.rs:153`):
`s.truncate(s.len() - 2)`, intended to drop the trailing `\r\n`.  The
length arithmetic is checked `usize` subtraction, so outputs shorter than
two bytes panic (`none`). -/
def Wsl.pasteStrip (s : List Nat) : Option (List Nat) :=
  match subChecked s.length 2 with
  | none => none
  | some n => truncateR s n

/-- `Wsl::paste` (`providers.rs:151-155`): `eat` the powershell command,
propagate read errors as `Err`, then strip the trailing two bytes (a panic
in the strip aborts: `none`). -/
def Wsl.paste (w : EatWorld) : Option (Except IoErr (List Nat)) :=
  match (eat powershellCmd w).2 with
  | Except.error e => some (Except.error e)
  | Except.ok s =>
    match Wsl.pasteStrip s with
    | none => none
    | some s2 => some (Except.ok s2)

/-- A WSL-like environment: `/proc/version` mentions Microsoft while every
`which` probe also succeeds (X11 tools installed). -/
def envWsl : Env :=
  { procVersion := some "Microsoft", waylandDisplay := true, probe := fun _ => some true }

/-- A plain-X11 environment: no Wayland display, every tool installed. -/
def envX11 : Env :=
  { procVersion := some "Linux version 6.1", waylandDisplay := false, probe := fun _ => some true }

/-- A bare environment: `/proc/version` unreadable, nothing installed. -/
def envBare : Env :=
  { procVersion := none, waylandDisplay := false, probe := fun _ => some false }

/-- A concrete failing initializer, as stored by the selection cache when
detection fails. -/
def detF : Unit → Except IoErr Nat := fun _ => Except.error noProviderErr

/-- Claim C1: on a Linux host `provide` consults its rules in the fixed
order WSL, Wayland (display set and `wl-copy` present), xsel, xclip,
Klipper (`klipper` and `qdbus` present), otherwise the detection error;
the first matching rule wins and later rules are not consulted (WSL beats
installed X11 tools; with both xsel and xclip present, xsel wins). -/
theorem provide_priority (e : Env) :
    (wslB e = true → provide e = Except.ok Provider.wsl) ∧
    (wslB e = false → e.waylandDisplay = true → hasCmd e "wl-copy" = true →
      provide e = Except.ok Provider.wayland) ∧
    (wslB e = false → (e.waylandDisplay && hasCmd e "wl-copy") = false →
      hasCmd e "xsel" = true → provide e = Except.ok Provider.xsel) ∧
    (wslB e = false → (e.waylandDisplay && hasCmd e "wl-copy") = false →
      hasCmd e "xsel" = false → hasCmd e "xclip" = true →
      provide e = Except.ok Provider.xclip) ∧
    (wslB e = false → (e.waylandDisplay && hasCmd e "wl-copy") = false →
      hasCmd e "xsel" = false → hasCmd e "xclip" = false →
      hasCmd e "klipper" = true → hasCmd e "qdbus" = true →
      provide e = Except.ok Provider.klipper) ∧
    (wslB e = false → (e.waylandDisplay && hasCmd e "wl-copy") = false →
      hasCmd e "xsel" = false → hasCmd e "xclip" = false →
      (hasCmd e "klipper" && hasCmd e "qdbus") = false →
      provide e = Except.error noProviderErr) := by
  refine ⟨fun h1 => ?_, fun h1 h2 h3 => ?_, fun h1 h2 h3 => ?_,
    fun h1 h2 h3 h4 => ?_, fun h1 h2 h3 h4 h5 h6 => ?_,
    fun h1 h2 h3 h4 h5 => ?_⟩
  · simp [provide, h1]
  · simp [provide, h1, h2, h3]
  · simp [provide, h1, h2, h3]
  · simp [provide, h1, h2, h3, h4]
  · simp [provide, h1, h2, h3, h4, h5, h6]
  · simp [provide, h1, h2, h3, h4, h5]

/-- Witness for C1: with `/proc/version` mentioning Microsoft and every
tool installed, WSL is chosen; on plain X11 with both xsel and xclip
installed, xsel is chosen. -/
theorem provide_priority_witness :
    provide envWsl = Except.ok Provider.wsl ∧
    provide envX11 = Except.ok Provider.xsel :=
  ⟨(provide_priority envWsl).1 (by decide),
   (provide_priority envX11).2.2.1 (by decide) (by decide) (by decide)⟩

/-- Claim C8 counterexample: in an environment matching no rule, `provide`
returns the error whose message is "no clipboard provided available"
(sic, `providers.rs:201`), which differs from the claimed message
"no clipboard provider available". -/
theorem provide_msg_counterexample :
    provide envBare =
      Except.error { kind := IoErrKind.other, msg := "no clipboard provided available" } ∧
    ({ kind := IoErrKind.other, msg := "no clipboard provided available" } : IoErr) ≠
      { kind := IoErrKind.other, msg := "no clipboard provider available" } :=
  ⟨rfl, by decide⟩

/-- Claim C8 (amended): when no selector rule matches, `provide` returns
the detection error with message "no clipboard provided available", the
spelling used in the source. -/
theorem provide_no_match_msg (e : Env) (h1 : wslB e = false)
    (h2 : (e.waylandDisplay && hasCmd e "wl-copy") = false)
    (h3 : hasCmd e "xsel" = false) (h4 : hasCmd e "xclip" = false)
    (h5 : (hasCmd e "klipper" && hasCmd e "qdbus") = false) :
    provide e =
      Except.error { kind := IoErrKind.other, msg := "no clipboard provided available" } := by
  simp [provide, h1, h2, h3, h4, h5, noProviderErr]

/-- Witness for C8 (amended): the bare environment takes the no-match
branch and yields the source-spelled message. -/
theorem provide_no_match_msg_witness :
    provide envBare =
      Except.error { kind := IoErrKind.other, msg := "no clipboard provided available" } :=
  provide_no_match_msg envBare (by decide) (by decide) (by decide) (by decide) (by decide)

/-- Claim C2: contrary to the claim, `Klipper::copy` only constructs the
`qdbus org.kde.klipper /klipper setClipboardContents <text>` command; it
never spawns it, and returns `Ok(())` unconditionally for every text. -/
theorem klipper_copy_no_spawn (text : String) :
    (Klipper.copy text).1.constructed = [klipperSetCmd text] ∧
    (Klipper.copy text).1.spawned = [] ∧
    (Klipper.copy text).2 = Except.ok () :=
  ⟨rfl, rfl, rfl⟩

/-- Once the slot is filled with `v`, any further sequence of façade calls
observes `v`, leaves the slot unchanged, and never runs detection again. -/
theorem runCalls_filled {α : Type} (f : Unit → α) (v : α) :
    ∀ n : Nat, runCalls f n (some v) = (List.replicate n v, some v, 0) := by
  intro n
  induction n with
  | zero => rfl
  | succ m ih => simp [runCalls, getOrInit, ih, List.replicate]

/-- Claim C3: starting from the empty slot, any sequence of at least one
façade call runs detection exactly once, every call observes the same
stored value (the detection result), and the slot stays filled with that
value — in particular a stored detection error is replayed to every
subsequent call without re-running detection. -/
theorem cache_once_sticky {α : Type} (f : Unit → α) (n : Nat) (h : 1 ≤ n) :
    (runCalls f n none).1 = List.replicate n (f ()) ∧
    (runCalls f n none).2.1 = some (f ()) ∧
    (runCalls f n none).2.2 = 1 := by
  obtain ⟨m, rfl⟩ : ∃ m, n = m + 1 := ⟨n - 1, (Nat.succ_pred_eq_of_pos h).symm⟩
  simp [runCalls, getOrInit, runCalls_filled, List.replicate]

/-- Witness for C3: three façade calls against a failing detector all
observe the same stored error, and detection ran once. -/
theorem cache_once_sticky_witness :
    1 ≤ 3 ∧
    ((runCalls detF 3 none).1 = List.replicate 3 (detF ()) ∧
      (runCalls detF 3 none).2.1 = some (detF ()) ∧
      (runCalls detF 3 none).2.2 = 1) :=
  ⟨by decide, cache_once_sticky detF 3 (by decide)⟩

/-- Claim C4: `Wsl::paste` post-processing evaluated at the failing input.
On the empty powershell output, `s.len() - 2` underflows and the operation
panics (`none`) instead of returning; on a CRLF-terminated output such as
`"a\r\n"` it does strip exactly the terminal two bytes. -/
theorem wsl_paste_truncate_eval :
    Wsl.paste { spawnErr := none, readErr := none, output := [] } = none ∧
    Wsl.paste { spawnErr := none, readErr := none, output := [97, 13, 10] } =
      some (Except.ok [97]) :=
  ⟨rfl, rfl⟩

/-- Claim C10: for every successfully read child output shorter than two
bytes, the `len - 2` computation in `Wsl::paste` underflows and the
operation panics (`none`) rather than returning `Ok` or an I/O error. -/
theorem wsl_paste_short_panics (w : EatWorld) (h1 : w.spawnErr = none)
    (h2 : w.readErr = none) (h3 : validUtf8 w.output = true)
    (h4 : w.output.length < 2) :
    Wsl.paste w = none := by
  have hsub : subChecked w.output.length 2 = none := by
    simp [subChecked, Nat.not_le.mpr h4]
  simp [Wsl.paste, eat, h1, h2, h3, Wsl.pasteStrip, hsub]

/-- Witness for C10: the one-byte output `"a"` makes `Wsl::paste` panic. -/
theorem wsl_paste_short_panics_witness :
    validUtf8 [97] = true ∧ [97].length < 2 ∧
    Wsl.paste { spawnErr := none, readErr := none, output := [97] } = none :=
  ⟨by decide, by decide,
    wsl_paste_short_panics { spawnErr := none, readErr := none, output := [97] }
      rfl rfl (by decide) (by decide)⟩

/-- Claim C5: `Wayland::copy("")` runs `wl-copy -p --clear` and is `Ok`
exactly when the child spawns and exits successfully; a spawn failure
surfaces verbatim and a non-zero exit surfaces as the `Other` I/O error
"wl-copy was not successful".  Every non-empty text is instead written to
the stdin of `wl-copy -p`, whose result ignores the exit status. -/
theorem wayland_copy_clear (sw : StatusWorld) (pw : PutWorld) (text : String) :
    ((Wayland.copy "" sw pw).1 = wlClearCmd) ∧
    ((Wayland.copy "" sw pw).2 = Except.ok () ↔
      sw.spawnErr = none ∧ sw.exitSuccess = true) ∧
    (∀ e, sw.spawnErr = some e → (Wayland.copy "" sw pw).2 = Except.error e) ∧
    (sw.spawnErr = none → sw.exitSuccess = false →
      (Wayland.copy "" sw pw).2 =
        Except.error { kind := IoErrKind.other, msg := "wl-copy was not successful" }) ∧
    (text ≠ "" →
      (Wayland.copy text sw pw).1 = { wlCopyCmd with stdinCfg := PipeCfg.piped } ∧
      (Wayland.copy text sw pw).2 = putResult pw ∧
      (putResult pw = Except.ok () → putWritten text pw = some text)) ∧
    (∀ b, putResult { pw with exitSuccess := b } = putResult pw) := by
  obtain ⟨se, ex⟩ := sw
  obtain ⟨pse, pwe, pwa, pex⟩ := pw
  refine ⟨rfl, ?_, ?_, ?_, fun ht => ?_, fun b => rfl⟩
  · cases se <;> cases ex <;> simp [Wayland.copy, statusRun]
  · intro e he; cases se <;> simp_all [Wayland.copy, statusRun]
  · intro h1 h2; subst h1; subst h2; simp [Wayland.copy, statusRun]
  · refine ⟨?_, ?_, ?_⟩
    · simp [Wayland.copy, ht, put]
    · simp [Wayland.copy, ht, put]
    · intro hok
      cases pse <;> cases pwe <;> cases pwa <;>
        simp_all [putResult, putWritten]

/-- Witness for C5: with a successful spawn but failing exit status,
`copy("")` returns the explanatory error; with the same worlds, a
non-empty `copy` succeeds because `put` never consults the exit status. -/
theorem wayland_copy_clear_witness :
    (Wayland.copy "" { spawnErr := none, exitSuccess := false }
        { spawnErr := none, writeErr := none, waitErr := none, exitSuccess := false }).2 =
      Except.error { kind := IoErrKind.other, msg := "wl-copy was not successful" } ∧
    (Wayland.copy "hi" { spawnErr := none, exitSuccess := false }
        { spawnErr := none, writeErr := none, waitErr := none, exitSuccess := false }).2 =
      Except.ok () := by
  constructor
  · exact (wayland_copy_clear { spawnErr := none, exitSuccess := false }
      { spawnErr := none, writeErr := none, waitErr := none, exitSuccess := false }
      "hi").2.2.2.1 rfl rfl
  · have h := (wayland_copy_clear { spawnErr := none, exitSuccess := false }
      { spawnErr := none, writeErr := none, waitErr := none, exitSuccess := false }
      "hi").2.2.2.2.1 (by decide)
    rw [h.2.1]
    rfl

/-- Claim C6: `XClip::paste` runs `xclip -selection c -o` with stderr sent
to the null sink, and although the caller also nulled stdout, the `eat`
helper re-pipes stdout last, so the command that runs has stdout piped and
its output read to end-of-stream is returned. -/
theorem xclip_paste_repipe (w : EatWorld) :
    (XClip.paste w).1.program = "xclip" ∧
    (XClip.paste w).1.args = ["-selection", "c", "-o"] ∧
    (XClip.paste w).1.stderrCfg = PipeCfg.toNull ∧
    (XClip.paste w).1.stdoutCfg = PipeCfg.piped ∧
    xclipPasteCmd.stdoutCfg = PipeCfg.toNull ∧
    (w.spawnErr = none → w.readErr = none → validUtf8 w.output = true →
      (XClip.paste w).2 = Except.ok w.output) := by
  refine ⟨rfl, rfl, rfl, rfl, rfl, fun h1 h2 h3 => ?_⟩
  simp [XClip.paste, eat, h1, h2, h3]

/-- Witness for C6: a concrete two-byte output is returned unchanged. -/
theorem xclip_paste_repipe_witness :
    (XClip.paste { spawnErr := none, readErr := none, output := [104, 105] }).2 =
      Except.ok [104, 105] :=
  (xclip_paste_repipe { spawnErr := none, readErr := none, output := [104, 105] }
    ).2.2.2.2.2 rfl rfl (by decide)

/-- Claim C9: `Eat::eat` interprets the child's stdout as UTF-8; every
output that is not valid UTF-8 makes the read fail with the `InvalidData`
I/O error (no lossy or partial string), and valid output is returned
in full. -/
theorem eat_utf8_strict (c : Cmd) (w : EatWorld) (h1 : w.spawnErr = none)
    (h2 : w.readErr = none) :
    (validUtf8 w.output = false → (eat c w).2 = Except.error utf8Err) ∧
    (validUtf8 w.output = true → (eat c w).2 = Except.ok w.output) := by
  constructor <;> intro h3 <;> simp [eat, h1, h2, h3]

/-- Witness for C9: the lone byte `0xFF` is not UTF-8 and makes `eat`
return the `InvalidData` error. -/
theorem eat_utf8_strict_witness :
    validUtf8 [255] = false ∧
    (eat klipperGetCmd { spawnErr := none, readErr := none, output := [255] }).2 =
      Except.error utf8Err :=
  ⟨by decide,
    (eat_utf8_strict klipperGetCmd { spawnErr := none, readErr := none, output := [255] }
      rfl rfl).1 (by decide)⟩

/-- A byte list whose last byte is `10` is non-empty, the cut point
`length - 1` is a char boundary (`'\n'` is ASCII), and truncating there
keeps everything but that final byte. -/
theorem truncateR_last_newline (s : List Nat) (hl : s.getLast? = some 10) :
    truncateR s (s.length - 1) = some s.dropLast := by
  have hne : s ≠ [] := by
    intro h0
    rw [h0] at hl
    simp at hl
  have hpos : 0 < s.length := List.length_pos.mpr hne
  have hget : s[s.length - 1]? = some 10 := by
    rw [← List.getLast?_eq_getElem?]
    exact hl
  have hb : isCharBoundary s (s.length - 1) = true := by
    unfold isCharBoundary
    rcases Nat.eq_zero_or_pos (s.length - 1) with hz | hp
    · simp [hz]
    · have hz2 : ((s.length - 1) == 0) = false := by
        simp [Nat.pos_iff_ne_zero.mp hp]
      simp [hz2, hget]
  have hni : ¬ (s.length < s.length - 1) := by omega
  unfold truncateR
  rw [if_neg hni, if_pos hb, List.dropLast_eq_take]

/-- Claim C7: when `Klipper::paste` reads the qdbus output successfully,
an output not ending in a newline trips `assert!` and aborts (`none`,
not a recoverable `Err`), while an output ending in a newline is returned
with exactly that one trailing byte removed. -/
theorem klipper_paste_newline (w : EatWorld) (h1 : w.spawnErr = none)
    (h2 : w.readErr = none) (h3 : validUtf8 w.output = true) :
    (w.output.getLast? ≠ some 10 → Klipper.paste w = none) ∧
    (w.output.getLast? = some 10 →
      Klipper.paste w = some (Except.ok w.output.dropLast)) := by
  have heat : (eat klipperGetCmd w).2 = Except.ok w.output := by
    simp [eat, h1, h2, h3]
  constructor
  · intro hne
    simp [Klipper.paste, heat, Klipper.pasteStrip, hne]
  · intro hl
    simp [Klipper.paste, heat, Klipper.pasteStrip, hl, truncateR_last_newline w.output hl]

/-- Witness for C7: the output `"h\n"` comes back as `"h"`, and the
newline-less output `"h"` aborts. -/
theorem klipper_paste_newline_witness :
    Klipper.paste { spawnErr := none, readErr := none, output := [104, 10] } =
      some (Except.ok [104]) ∧
    Klipper.paste { spawnErr := none, readErr := none, output := [104] } = none :=
  ⟨(klipper_paste_newline { spawnErr := none, readErr := none, output := [104, 10] }
      rfl rfl (by decide)).2 (by decide),
   (klipper_paste_newline { spawnErr := none, readErr := none, output := [104] }
      rfl rfl (by decide)).1 (by decide)⟩
